import Mathlib

/-!
Verification of the motion-control core of the `simulator-v4` repository.

The Python sources are shallowly embedded as pure Lean functions:

* `ArduinoController` (src/motion_control/arduino_controller.py): controller
  state with an optional serial connection; the serial channel records the
  list of write payloads, so "no bytes written" is expressible.
* `AssettoPhysics` (src/motion_control/assetto_physics.py): gear-change and
  acceleration-jerk channels with `Option` previous values; Python floats
  are embedded as `ℚ` (the operations used — subtraction, `abs`,
  multiplication by 10, comparisons against 0.5/0.2 — are modelled exactly).
* `ConnectionManager` (src/motion_control/connection_manager.py): the dict
  of per-port record dicts is embedded with an explicit heap (list of
  records addressed by index) so that the aliasing behaviour of Python's
  shallow `dict(...)` copy is captured faithfully.
-/

/-- One serial channel, as seen by the controller: the open flag, the list of
payloads written so far (one entry per `write` call), and a queue of incoming
lines for `read_response`. The underlying `write` is assumed not to raise. -/
structure SerialConn where
  is_open : Bool
  written : List String
  incoming : List String
deriving DecidableEq

/-- State of `ArduinoController.__init__`: baudrate, timeout, optional
connection, optional port, and the `_is_connected` flag. -/
structure ArduinoController where
  baudrate : Nat
  timeout : ℚ
  connection : Option SerialConn
  port : Option String
  flag_connected : Bool
deriving DecidableEq

/-- `ArduinoController.is_connected`: `self._is_connected and self.connection
and self.connection.is_open`. -/
def ArduinoController.is_connected (st : ArduinoController) : Bool :=
  st.flag_connected &&
    (match st.connection with
     | some c => c.is_open
     | none => false)

/-- Payloads written to the serial channel so far (empty if no connection). -/
def ArduinoController.writtenBytes (st : ArduinoController) : List String :=
  match st.connection with
  | some c => c.written
  | none => []

/-- The structured wire encoding used by `send_command`:
`f"{speed},{angle}\n"` (built here without braces). -/
def commandPayload (speed angle : Int) : String :=
  toString speed ++ "," ++ toString angle ++ "\n"

/-- `ArduinoController.read_response` (response part only, fixed timeout):
returns the next incoming line if one is waiting, mapping an empty line to
`None`; consumes the line from the channel. -/
def ArduinoController.read_response (st : ArduinoController) :
    Option String × ArduinoController :=
  if st.is_connected = false then (none, st)
  else
    match st.connection with
    | none => (none, st)
    | some c =>
      match c.incoming with
      | [] => (none, st)
      | r :: rest =>
        (if r = "" then none else some r,
         { st with connection := some { c with incoming := rest } })

/-- `ArduinoController.send_command`: fails when not connected; validates
`0 <= speed <= 255` then `0 <= angle <= 180` before any transmission;
otherwise writes `commandPayload speed angle`, does a best-effort response
read, and reports success. -/
def ArduinoController.send_command (speed angle : Int) (st : ArduinoController) :
    Bool × ArduinoController :=
  if st.is_connected = false then (false, st)
  else if ¬ (0 ≤ speed ∧ speed ≤ 255) then (false, st)
  else if ¬ (0 ≤ angle ∧ angle ≤ 180) then (false, st)
  else
    match st.connection with
    | none => (false, st)
    | some c =>
      let c1 : SerialConn :=
        { c with written := c.written ++ [commandPayload speed angle] }
      let st1 : ArduinoController := { st with connection := some c1 }
      let r := st1.read_response
      (true, r.2)

/-- `ArduinoController.disconnect`: closes the channel if open (the handle is
dropped with the reference), clears the connected flag, connection and port. -/
def ArduinoController.disconnect (st : ArduinoController) : ArduinoController :=
  { st with flag_connected := false, connection := none, port := none }

/-- Typed command errors of the manual-command operation (spec §7). -/
inductive CommandError where
  | notConnected
  | invalidToken
deriving DecidableEq

/-- The closed set of single-character directional tokens accepted by the
manual-command operation (spec §6: "one of a closed token set
(e.g. 'f', 'b')"). -/
def manualCommandTokens : List Char := ['f', 'b']

/-- Modelled from the spec: `send_manual_command` is invoked by the WebSocket
consumer (src/motion_control/consumers.py, `receive`, action "command") but no
such method exists in src/motion_control/arduino_controller.py, so the body is
taken from spec §4.1: it "accepts only a closed set of single-character
directional tokens; fails with `InvalidToken` otherwise; transmitted as a
single unterminated byte/character, distinct protocol from `sendCommand`". -/
def ArduinoController.send_manual_command (tok : Char) (st : ArduinoController) :
    Except CommandError Unit × ArduinoController :=
  if st.is_connected = false then (Except.error CommandError.notConnected, st)
  else if tok ∉ manualCommandTokens then (Except.error CommandError.invalidToken, st)
  else
    match st.connection with
    | none => (Except.error CommandError.notConnected, st)
    | some c =>
      let c1 : SerialConn := { c with written := c.written ++ [String.mk [tok]] }
      (Except.ok (), { st with connection := some c1 })

/-- State of `AssettoPhysics.__init__`: the (required) controller reference and
the two per-channel previous values, both starting unset (`None`). -/
structure AssettoPhysics where
  arduino_controller : ArduinoController
  previous_z_accel : Option ℚ
  previous_gear : Option Int
deriving DecidableEq

/-- `AssettoPhysics.__init__` with a non-`None` controller. -/
def AssettoPhysics.init (ac : ArduinoController) : AssettoPhysics :=
  ⟨ac, none, none⟩

/-- Return dict of `AssettoPhysics.get_gear_change`. -/
structure GearResult where
  current_gear : Int
  previous_gear : Option Int
  gear_changed : Bool
  change_type : Option String
  change_direction : Int
deriving DecidableEq

/-- Return dict of `AssettoPhysics.get_acceleration_factor`. -/
structure AccelResult where
  x : ℚ
  y : ℚ
  z : ℚ
  factor : ℚ
  change : ℚ
  status : String
deriving DecidableEq

/-- `AssettoPhysics.get_gear_change`: the argument is the `gear` field of the
telemetry snapshot (`none` when the snapshot or the field is missing, in which
case the method returns `None` and leaves its state untouched). -/
def AssettoPhysics.get_gear_change (gear? : Option Int) (st : AssettoPhysics) :
    Option GearResult × AssettoPhysics :=
  match gear? with
  | none => (none, st)
  | some current_gear =>
    let step : Bool × Option String × Int :=
      match st.previous_gear with
      | some p =>
        if p ≠ current_gear then
          let d := current_gear - p
          (true, if d > 0 then some "up" else if d < 0 then some "down" else none, d)
        else (false, none, 0)
      | none => (false, none, 0)
    let res : GearResult :=
      { current_gear := current_gear
        previous_gear := st.previous_gear
        gear_changed := step.1
        change_type := step.2.1
        change_direction := step.2.2 }
    (some res, { st with previous_gear := some current_gear })

/-- `AssettoPhysics.get_acceleration_factor`: the argument is the `accG`
triple `(lateral, vertical, longitudinal)` of the telemetry snapshot (`none`
when the snapshot or the field is missing / falsy, in which case the method
returns `None` and leaves its state untouched). -/
def AssettoPhysics.get_acceleration_factor (accG? : Option (ℚ × ℚ × ℚ))
    (st : AssettoPhysics) : Option AccelResult × AssettoPhysics :=
  match accG? with
  | none => (none, st)
  | some (x, y, z) =>
    let step : ℚ × ℚ × String :=
      match st.previous_z_accel with
      | some p =>
        let accel_change := |z - p|
        (accel_change * 10, accel_change,
         if accel_change > 1/2 then "ABRUPT!"
         else if accel_change > 1/5 then "Moderate"
         else "Normal")
      | none => (0, 0, "Normal")
    let res : AccelResult :=
      { x := x, y := y, z := z
        factor := step.1
        change := step.2.1
        status := step.2.2 }
    (some res, { st with previous_z_accel := some z })

/-- Feed a list of gear samples tick by tick, collecting the returned dicts. -/
def AssettoPhysics.run_gear_changes (gears : List Int) (st : AssettoPhysics) :
    List GearResult × AssettoPhysics :=
  match gears with
  | [] => ([], st)
  | g :: gs =>
    let r := st.get_gear_change (some g)
    let rest := r.2.run_gear_changes gs
    (match r.1 with
     | some res => res :: rest.1
     | none => rest.1, rest.2)

/-- The gear-change events (dicts with `gear_changed = true`) emitted over a
gear sequence, starting from the freshly initialised state. -/
def gearEventsFrom (ac : ArduinoController) (gears : List Int) : List GearResult :=
  ((AssettoPhysics.init ac).run_gear_changes gears).1.filter (·.gear_changed)

/-- Modelled from the spec: the GasChannel pedal-press monitor ("alternate
mode") has no implementation under src/; spec §4.3 defines it as tracking
"whether gas pedal input crosses from ≤0.1 to >0.1 between ticks ('pedal
press edge')", firing `PedalPressed` "at most once per continuous press
(edge-triggered, not level-triggered)". One tick: given the current gas input
and the stored previous input (unset before the first tick), report whether
`PedalPressed` fires and store the current input. -/
def gasChannelTick (gas : ℚ) (prev : Option ℚ) : Bool × Option ℚ :=
  (match prev with
   | some p => decide (p ≤ 1/10) && decide (gas > 1/10)
   | none => false,
   some gas)

/-- Feed a list of gas samples through `gasChannelTick`, collecting the
per-tick `PedalPressed` flags in order. -/
def runGasChannel : List ℚ → Option ℚ → List Bool
  | [], _ => []
  | g :: gs, prev =>
    let t := gasChannelTick g prev
    t.1 :: runGasChannel gs t.2

/-- One record of the connection registry: the per-port dict created by
`ConnectionManager.register_connection` and mutated in place by the update
methods. Timestamps are abstract (`datetime.now().isoformat()` is passed in
as a parameter); a `last_command` is a `(speed, angle)` pair. -/
structure ConnRecord where
  port : String
  connected : Bool
  motor_number : Option Int
  position : Option String
  connected_at : Nat
  disconnected_at : Option Nat
  last_command : Option (Int × Int)
  last_command_at : Option Nat
deriving DecidableEq

/-- State of the `ConnectionManager` singleton. Python's
`self._connections : Dict[str, dict]` maps each port to a *reference* to a
mutable record dict; the embedding makes the references explicit: `store` maps
ports to heap addresses (in insertion order, as a Python dict does) and
`heap` holds the record dicts themselves, addressed by index. -/
structure RegState where
  store : List (String × Nat)
  heap : List ConnRecord
deriving DecidableEq

/-- Python dict assignment `d[k] = v`: replace the value of an existing key in
place, otherwise append the new binding. -/
def dictAssign : List (String × Nat) → String → Nat → List (String × Nat)
  | [], k, v => [(k, v)]
  | kv :: rest, k, v =>
    if kv.1 = k then (k, v) :: rest else kv :: dictAssign rest k v

/-- Python dict lookup `d.get(k)`. -/
def lookupStore : List (String × Nat) → String → Option Nat
  | [], _ => none
  | kv :: rest, k => if kv.1 = k then some kv.2 else lookupStore rest k

/-- `ConnectionManager.register_connection`: allocates a fresh record dict
(`connected=True`, the given motor number, `connected_at` stamped `now`) and
binds the port to it, overwriting any previous binding for that port. -/
def RegState.register_connection (port : String) (motor_number : Option Int)
    (now : Nat) (st : RegState) : RegState :=
  let rec0 : ConnRecord :=
    { port := port
      connected := true
      motor_number := motor_number
      position := none
      connected_at := now
      disconnected_at := none
      last_command := none
      last_command_at := none }
  { store := dictAssign st.store port st.heap.length
    heap := st.heap ++ [rec0] }

/-- `ConnectionManager.unregister_connection`: deletes the port's binding if
present (the record dict itself survives as long as something references it —
here, the heap entry is untouched). -/
def RegState.unregister_connection (port : String) (st : RegState) : RegState :=
  { st with store := st.store.filter (fun kv => kv.1 ≠ port) }

/-- `ConnectionManager.update_connection_status`: mutates the record dict in
place; if transitioning to disconnected, stamps `disconnected_at`. No-op if
the port is not registered. -/
def RegState.update_connection_status (port : String) (connected : Bool)
    (now : Nat) (st : RegState) : RegState :=
  match lookupStore st.store port with
  | none => st
  | some a =>
    match st.heap[a]? with
    | none => st
    | some r =>
      let r1 : ConnRecord :=
        { r with connected := connected
                 disconnected_at :=
                   if connected then r.disconnected_at else some now }
      { st with heap := st.heap.set a r1 }

/-- `ConnectionManager.update_motor_position`: mutates the record dict in
place; no-op if the port is not registered. -/
def RegState.update_motor_position (port : String) (position : String)
    (st : RegState) : RegState :=
  match lookupStore st.store port with
  | none => st
  | some a =>
    match st.heap[a]? with
    | none => st
    | some r =>
      { st with heap := st.heap.set a { r with position := some position } }

/-- `ConnectionManager.update_last_command`: mutates the record dict in place,
stamping `last_command_at`; no-op if the port is not registered. -/
def RegState.update_last_command (port : String) (command : Int × Int)
    (now : Nat) (st : RegState) : RegState :=
  match lookupStore st.store port with
  | none => st
  | some a =>
    match st.heap[a]? with
    | none => st
    | some r =>
      let r1 : ConnRecord :=
        { r with last_command := some command, last_command_at := some now }
      { st with heap := st.heap.set a r1 }

/-- `ConnectionManager.get_all_connections`: `dict(self._connections)` — a
shallow copy of the outer dict, i.e. the same port-to-record-reference
bindings. -/
def RegState.get_all_connections (st : RegState) : List (String × Nat) :=
  st.store

/-- Dereference a snapshot against a heap: what a caller holding the snapshot
actually observes when it reads the records. -/
def viewSnapshot (snap : List (String × Nat)) (heap : List ConnRecord) :
    List (String × Option ConnRecord) :=
  snap.map (fun kv => (kv.1, heap[kv.2]?))

/-- Well-formedness of a registry state: every stored address points into the
heap. It holds for every state reachable from the empty registry. -/
def RegWF (st : RegState) : Prop :=
  ∀ kv ∈ st.store, kv.2 < st.heap.length

instance : DecidablePred RegWF := fun st =>
  inferInstanceAs (Decidable (∀ kv ∈ st.store, kv.2 < st.heap.length))

/-- A registered listener callback, identified by `id`; `fails snap` says
whether calling it on snapshot `snap` raises an exception. -/
structure RegListener where
  id : Nat
  fails : List (String × Nat) → Bool

/-- Calling one listener on a snapshot: raises iff the callback raises. -/
def invokeListener (l : RegListener) (snap : List (String × Nat)) :
    Except String Unit :=
  if l.fails snap then Except.error "listener raised" else Except.ok ()

/-- `ConnectionManager._notify_listeners`: for each registered listener in
order, call it with `get_all_connections()`; an exception from the call is
caught and logged inside the loop body, so the loop continues with the next
listener and nothing propagates to the registry caller. Returns the list of
invocations `(listener id, snapshot argument)` in order, and the error log. -/
def notify_listeners : List RegListener → RegState →
    List (Nat × List (String × Nat)) × List String
  | [], _ => ([], [])
  | l :: ls, st =>
    let snap := st.get_all_connections
    let call := invokeListener l snap
    let rest := notify_listeners ls st
    ((l.id, snap) :: rest.1,
     match call with
     | Except.error e => e :: rest.2
     | Except.ok _ => rest.2)

/-- A controller with an open serial connection, used by the witnesses. -/
def arduinoDemo : ArduinoController :=
  ⟨9600, 1, some ⟨true, [], []⟩, some "COM3", true⟩

/-- A never-connected controller, used in concrete instances. -/
def arduinoFresh : ArduinoController :=
  ⟨9600, 1, none, none, false⟩

/-- The registry state after one registration on `"COM3"`; shared by the
concrete registry theorems. -/
def regDemo0 : RegState := RegState.register_connection "COM3" (some 1) 0 ⟨[], []⟩

/-- C1: for every connected `ArduinoController` and all integer `speed` and
`angle`, `send_command` succeeds iff `0 ≤ speed ≤ 255` and `0 ≤ angle ≤ 180`
(the underlying write is modelled as not raising); for every out-of-range
input it returns `False` and leaves the controller — in particular the bytes
written to the serial channel — unchanged. -/
theorem C1_send_command_validates (st : ArduinoController) (speed angle : Int)
    (h : st.is_connected = true) :
    ((ArduinoController.send_command speed angle st).1 = true ↔
      (0 ≤ speed ∧ speed ≤ 255 ∧ 0 ≤ angle ∧ angle ≤ 180))
    ∧ (¬ (0 ≤ speed ∧ speed ≤ 255 ∧ 0 ≤ angle ∧ angle ≤ 180) →
        ArduinoController.send_command speed angle st = (false, st)) := by
  rcases hc : st.connection with _ | c
  · exfalso
    unfold ArduinoController.is_connected at h
    rw [hc] at h
    simp at h
  · by_cases h1 : (0 ≤ speed ∧ speed ≤ 255) <;>
      by_cases h2 : (0 ≤ angle ∧ angle ≤ 180) <;>
      constructor <;>
      simp only [ArduinoController.send_command, h, hc] <;>
      simp [h1, h2]

/-- Witness for C1 at a connected controller with `speed = 100`, `angle = 90`. -/
theorem C1_witness :
    ((ArduinoController.send_command 100 90 arduinoDemo).1 = true ↔
      (0 ≤ (100 : Int) ∧ (100 : Int) ≤ 255 ∧ 0 ≤ (90 : Int) ∧ (90 : Int) ≤ 180))
    ∧ (¬ (0 ≤ (100 : Int) ∧ (100 : Int) ≤ 255 ∧ 0 ≤ (90 : Int) ∧ (90 : Int) ≤ 180) →
        ArduinoController.send_command 100 90 arduinoDemo = (false, arduinoDemo)) :=
  C1_send_command_validates arduinoDemo 100 90 (by decide)

/-- C2: a gear-change event is reported exactly when the stored previous gear
is set and differs from the current gear, with direction `current - previous`
(positive reported as `"up"`, negative as `"down"`), the stored previous gear
being updated to the current gear regardless; the gear sequence
`[1,1,2,2,3,2]` from the unset state yields exactly the events
`1→2 up`, `2→3 up`, `3→2 down`, in that order. -/
theorem C2_gear_change_detection (ac : ArduinoController) (za : Option ℚ)
    (p g : Int) :
    (AssettoPhysics.get_gear_change (some g) ⟨ac, za, some p⟩ =
      (some { current_gear := g
              previous_gear := some p
              gear_changed := decide (p ≠ g)
              change_type := if p = g then none
                             else if p < g then some "up" else some "down"
              change_direction := if p = g then 0 else g - p },
       ⟨ac, za, some g⟩))
    ∧ (AssettoPhysics.get_gear_change (some g) ⟨ac, za, none⟩ =
      (some { current_gear := g
              previous_gear := none
              gear_changed := false
              change_type := none
              change_direction := 0 },
       ⟨ac, za, some g⟩))
    ∧ gearEventsFrom ac [1, 1, 2, 2, 3, 2] =
      [⟨2, some 1, true, some "up", 1⟩,
       ⟨3, some 2, true, some "up", 1⟩,
       ⟨2, some 3, true, some "down", -1⟩] := by
  refine ⟨?_, rfl, rfl⟩
  by_cases hpg : p = g
  · subst hpg
    simp [AssettoPhysics.get_gear_change]
  · by_cases hlt : p < g
    · have h1 : g - p > 0 := by omega
      simp [AssettoPhysics.get_gear_change, hpg, hlt, h1]
    · have h1 : ¬ (g - p > 0) := by omega
      have h2 : g - p < 0 := by omega
      simp [AssettoPhysics.get_gear_change, hpg, hlt, h1, h2]

/-- C3: with the stored previous longitudinal acceleration set to `p`, a call
with current longitudinal acceleration `z` yields change `|z - p|`, factor
`|z - p| * 10`, status `"ABRUPT!"` when the change exceeds 0.5, `"Moderate"`
when it exceeds 0.2 but not 0.5, `"Normal"` otherwise, and stores `z` as the
new previous value; with previous 0, current 0.61 gives `"ABRUPT!"` with
factor 6.1, current 0.25 gives `"Moderate"`, current 0.05 gives `"Normal"`. -/
theorem C3_jerk_classification (ac : ArduinoController) (pg : Option Int)
    (p x y z : ℚ) :
    (AssettoPhysics.get_acceleration_factor (some (x, y, z)) ⟨ac, some p, pg⟩ =
      (some { x := x, y := y, z := z
              factor := |z - p| * 10
              change := |z - p|
              status := if |z - p| > 1/2 then "ABRUPT!"
                        else if |z - p| > 1/5 then "Moderate"
                        else "Normal" },
       ⟨ac, some z, pg⟩))
    ∧ (AssettoPhysics.get_acceleration_factor (some (0, 0, 61/100))
          ⟨ac, some 0, pg⟩).1 =
        some ⟨0, 0, 61/100, 61/10, 61/100, "ABRUPT!"⟩
    ∧ (AssettoPhysics.get_acceleration_factor (some (0, 0, 1/4))
          ⟨ac, some 0, pg⟩).1 =
        some ⟨0, 0, 1/4, 5/2, 1/4, "Moderate"⟩
    ∧ (AssettoPhysics.get_acceleration_factor (some (0, 0, 1/20))
          ⟨ac, some 0, pg⟩).1 =
        some ⟨0, 0, 1/20, 1/2, 1/20, "Normal"⟩ := by
  refine ⟨rfl, ?_, ?_, ?_⟩ <;>
    simp only [AssettoPhysics.get_acceleration_factor] <;>
    norm_num [abs_of_nonneg]

/-- C4: one gas-channel tick fires `PedalPressed` exactly when the stored
previous input is `≤ 0.1` and the current input is `> 0.1` (never on the very
first tick), always storing the current input; the gas sequence
`[0.0, 0.0, 0.3, 0.3, 0.0, 0.4]` fires exactly twice, at index 2 and
index 5, and not at index 3. -/
theorem C4_pedal_edge_trigger (p cur : ℚ) :
    ((gasChannelTick cur (some p)).1 = true ↔ (p ≤ 1/10 ∧ cur > 1/10))
    ∧ (gasChannelTick cur (some p)).2 = some cur
    ∧ gasChannelTick cur none = (false, some cur)
    ∧ runGasChannel [0, 0, 3/10, 3/10, 0, 4/10] none =
        [false, false, true, false, false, true] := by
  refine ⟨?_, rfl, rfl, ?_⟩
  · simp [gasChannelTick]
  · simp only [runGasChannel, gasChannelTick]
    norm_num

/-- Every listener appears in the invocation list, in registration order,
each one called with the full snapshot. -/
theorem notify_listeners_invocations (ls : List RegListener) (st : RegState) :
    (notify_listeners ls st).1 =
      ls.map (fun l => (l.id, st.get_all_connections)) := by
  induction ls with
  | nil => rfl
  | cons l rest ih => simp [notify_listeners, ih]

/-- The error log of a notification round: one caught-and-logged entry per
faulting listener, none of them propagated. -/
theorem notify_listeners_log (ls : List RegListener) (st : RegState) :
    (notify_listeners ls st).2 =
      (ls.filter (fun l => l.fails st.get_all_connections)).map
        (fun _ => "listener raised") := by
  induction ls with
  | nil => rfl
  | cons l rest ih =>
    by_cases hf : l.fails st.get_all_connections <;>
      simp [notify_listeners, invokeListener, hf, ih]

/-- C7: every registered listener is invoked with the full snapshot; an
exception raised by a listener is caught and logged (the notification loop is
total: it returns invocations and a log instead of propagating), and a
faulting listener does not prevent any listener registered after it from
receiving the same notification. -/
theorem C7_listener_isolation (ls : List RegListener) (st : RegState) :
    (notify_listeners ls st).1 =
      ls.map (fun l => (l.id, st.get_all_connections))
    ∧ (notify_listeners ls st).2 =
        (ls.filter (fun l => l.fails st.get_all_connections)).map
          (fun _ => "listener raised")
    ∧ (notify_listeners (⟨0, fun _ => true⟩ :: ls) st).1 =
        (0, st.get_all_connections) ::
          ls.map (fun l => (l.id, st.get_all_connections)) := by
  refine ⟨notify_listeners_invocations ls st, notify_listeners_log ls st, ?_⟩
  simp [notify_listeners, notify_listeners_invocations]

/-- C9: `disconnect` is idempotent (two consecutive calls end in the same
state as one), never errors (it is a total function on every controller state,
including a never-connected one), and leaves `is_connected() = false` after
the first and after the second call. -/
theorem C9_disconnect_idempotent (st : ArduinoController) :
    st.disconnect.disconnect = st.disconnect
    ∧ st.disconnect.is_connected = false
    ∧ st.disconnect.disconnect.is_connected = false
    ∧ arduinoFresh.disconnect.disconnect = arduinoFresh.disconnect :=
  ⟨rfl, rfl, rfl, rfl⟩

/-- Assigning a key makes it look up to the assigned value. -/
theorem lookupStore_dictAssign (s : List (String × Nat)) (k : String) (v : Nat) :
    lookupStore (dictAssign s k v) k = some v := by
  induction s with
  | nil => simp [dictAssign, lookupStore]
  | cons kv rest ih =>
    by_cases hk : kv.1 = k
    · simp [dictAssign, hk, lookupStore]
    · simp [dictAssign, hk, lookupStore, ih]

/-- A key present after an assignment is the assigned key or was present
before. -/
theorem mem_keys_dictAssign (s : List (String × Nat)) (k : String) (v : Nat)
    (x : String) (hx : x ∈ (dictAssign s k v).map Prod.fst) :
    x = k ∨ x ∈ s.map Prod.fst := by
  induction s with
  | nil =>
    simp [dictAssign] at hx
    exact Or.inl hx
  | cons kv rest ih =>
    by_cases hk : kv.1 = k
    · simp only [dictAssign, if_pos hk, List.map_cons, List.mem_cons] at hx
      rcases hx with h1 | h1
      · exact Or.inl h1
      · exact Or.inr (by simp [h1])
    · simp only [dictAssign, if_neg hk, List.map_cons, List.mem_cons] at hx
      rcases hx with h1 | h1
      · exact Or.inr (by simp [h1])
      · rcases ih h1 with h2 | h2
        · exact Or.inl h2
        · exact Or.inr (by simp [h2])

/-- Dict assignment preserves distinctness of keys. -/
theorem keys_dictAssign_nodup (s : List (String × Nat)) (k : String) (v : Nat)
    (h : (s.map Prod.fst).Nodup) :
    ((dictAssign s k v).map Prod.fst).Nodup := by
  induction s with
  | nil => simp [dictAssign]
  | cons kv rest ih =>
    simp only [List.map_cons, List.nodup_cons] at h
    by_cases hk : kv.1 = k
    · simp only [dictAssign, if_pos hk, List.map_cons, List.nodup_cons]
      exact ⟨hk ▸ h.1, h.2⟩
    · simp only [dictAssign, if_neg hk, List.map_cons, List.nodup_cons]
      refine ⟨fun hmem => ?_, ih h.2⟩
      rcases mem_keys_dictAssign rest k v kv.1 hmem with h1 | h1
      · exact hk h1
      · exact h.1 h1

/-- With distinct keys, the assigned key occurs exactly once afterwards. -/
theorem countP_dictAssign (s : List (String × Nat)) (k : String) (v : Nat)
    (h : (s.map Prod.fst).Nodup) :
    (dictAssign s k v).countP (fun kv => kv.1 == k) = 1 := by
  induction s with
  | nil => simp [dictAssign]
  | cons kv rest ih =>
    simp only [List.map_cons, List.nodup_cons] at h
    by_cases hk : kv.1 = k
    · simp only [dictAssign, if_pos hk, List.countP_cons]
      have hz : rest.countP (fun kv => kv.1 == k) = 0 := by
        rw [List.countP_eq_zero]
        intro a ha
        simp only [beq_iff_eq]
        intro hak
        exact h.1 (hk ▸ hak ▸ List.mem_map_of_mem Prod.fst ha)
      simp [hz]
    · simp only [dictAssign, if_neg hk, List.countP_cons, ih h.2]
      simp [hk]

/-- C5 counterexample: `get_all_connections` is only a shallow copy. After
registering `"COM3"` and taking a snapshot, `update_connection_status "COM3"
False` mutates the record dict the snapshot still references, so the record
visible through the previously returned snapshot changes — refuting the claim
that no subsequent registry mutation is visible through a prior snapshot. -/
theorem C5_counterexample :
    viewSnapshot regDemo0.get_all_connections
        (regDemo0.update_connection_status "COM3" false 5).heap ≠
      viewSnapshot regDemo0.get_all_connections regDemo0.heap := by decide

/-- C5 amended: the snapshot equals the registry's contents at the moment of
the call, and key-level mutations (`register_connection`,
`unregister_connection`) after the snapshot do not change any record visible
through it; but the field-level mutations (`update_connection_status`,
`update_motor_position`, `update_last_command`) mutate the shared record dict
in place, and the new field values are visible through the previously
returned snapshot. -/
theorem C5_snapshot_shallow_copy (st : RegState) (hwf : RegWF st)
    (port q : String) (m : Option Int) (c : Bool) (cmd : Int × Int) (t : Nat) :
    (viewSnapshot st.get_all_connections
        (st.register_connection port m t).heap =
      viewSnapshot st.get_all_connections st.heap)
    ∧ (viewSnapshot st.get_all_connections
        (st.unregister_connection port).heap =
      viewSnapshot st.get_all_connections st.heap)
    ∧ (∀ a r, lookupStore st.get_all_connections port = some a →
        st.heap[a]? = some r →
        ((st.update_connection_status port c t).heap[a]? =
            some { r with connected := c
                          disconnected_at :=
                            if c then r.disconnected_at else some t }
          ∧ (st.update_motor_position port q).heap[a]? =
            some { r with position := some q }
          ∧ (st.update_last_command port cmd t).heap[a]? =
            some { r with last_command := some cmd
                          last_command_at := some t })) := by
  refine ⟨?_, rfl, ?_⟩
  · unfold viewSnapshot RegState.get_all_connections
    apply List.map_congr_left
    intro kv hkv
    have hlt : kv.2 < st.heap.length := hwf kv hkv
    simp [RegState.register_connection, List.getElem?_append, hlt]
  · intro a r hlook hget
    have hlt : a < st.heap.length := by
      rw [List.getElem?_eq_some] at hget
      exact hget.1
    simp only [RegState.get_all_connections] at hlook
    refine ⟨?_, ?_, ?_⟩ <;>
      simp only [RegState.update_connection_status,
        RegState.update_motor_position, RegState.update_last_command,
        hlook, hget] <;>
      exact List.getElem?_set_self hlt

/-- Witness for C5 amended at the one-entry registry `regDemo0`. -/
theorem C5_witness :
    (viewSnapshot regDemo0.get_all_connections
        (regDemo0.register_connection "COM3" (some 2) 5).heap =
      viewSnapshot regDemo0.get_all_connections regDemo0.heap)
    ∧ (regDemo0.update_connection_status "COM3" false 5).heap[0]? =
        some ⟨"COM3", false, some 1, none, 0, some 5, none, none⟩ := by
  have h := C5_snapshot_shallow_copy regDemo0 (by decide) "COM3" "left"
    (some 2) false (10, 20) 5
  refine ⟨h.1, ?_⟩
  have h2 := (h.2.2 0 ⟨"COM3", true, some 1, none, 0, none, none, none⟩
    (by decide) (by decide)).1
  simpa using h2

/-- C6: with distinct keys, registering a port leaves exactly one connection
record for that key — bound to the freshly allocated record with the latest
`motor_number` and `connected_at` and `connected = True` — overwriting any
existing binding rather than adding a second one, and keys stay distinct. -/
theorem C6_register_overwrites (st : RegState)
    (h : (st.store.map Prod.fst).Nodup)
    (port : String) (m : Option Int) (t : Nat) :
    ((st.register_connection port m t).store.map Prod.fst).Nodup
    ∧ (st.register_connection port m t).store.countP
        (fun kv => kv.1 == port) = 1
    ∧ lookupStore (st.register_connection port m t).store port =
        some st.heap.length
    ∧ (st.register_connection port m t).heap[st.heap.length]? =
        some ⟨port, true, m, none, t, none, none, none⟩ := by
  refine ⟨keys_dictAssign_nodup _ _ _ h, countP_dictAssign _ _ _ h,
    lookupStore_dictAssign _ _ _, ?_⟩
  simp [RegState.register_connection, List.getElem?_concat_length]

/-- Witness for C6: re-registering `"COM3"` (already present in `regDemo0`
with motor 1, time 0) with motor 2 at time 7 overwrites the binding. -/
theorem C6_witness :
    ((regDemo0.register_connection "COM3" (some 2) 7).store.map Prod.fst).Nodup
    ∧ (regDemo0.register_connection "COM3" (some 2) 7).store.countP
        (fun kv => kv.1 == "COM3") = 1
    ∧ lookupStore (regDemo0.register_connection "COM3" (some 2) 7).store
        "COM3" = some regDemo0.heap.length
    ∧ (regDemo0.register_connection "COM3" (some 2) 7).heap[regDemo0.heap.length]? =
        some ⟨"COM3", true, some 2, none, 7, none, none, none⟩ :=
  C6_register_overwrites regDemo0 (by decide) "COM3" (some 2) 7

/-- C8: for a connected link, the modelled manual-command operation succeeds
iff the token is in the closed single-character token set, writing exactly
that one character with no newline terminator; any other input fails with
`invalidToken` and leaves the state untouched; `send_command`'s structured
protocol is newline-terminated, unlike the manual one. -/
theorem C8_manual_command_tokens (st : ArduinoController) (tok : Char)
    (h : st.is_connected = true) :
    ((ArduinoController.send_manual_command tok st).1 = Except.ok () ↔
      tok ∈ manualCommandTokens)
    ∧ (tok ∉ manualCommandTokens →
        ArduinoController.send_manual_command tok st =
          (Except.error CommandError.invalidToken, st))
    ∧ (tok ∈ manualCommandTokens →
        ((ArduinoController.send_manual_command tok st).2.writtenBytes =
            st.writtenBytes ++ [String.mk [tok]]
          ∧ (String.mk [tok]).data.length = 1
          ∧ (String.mk [tok]).data.getLast? ≠ some '\n'))
    ∧ (∀ s a : Int, (commandPayload s a).data.getLast? = some '\n') := by
  rcases hc : st.connection with _ | c
  · exfalso
    unfold ArduinoController.is_connected at h
    rw [hc] at h
    simp at h
  · refine ⟨?_, ?_, ?_, ?_⟩
    · by_cases ht : tok ∈ manualCommandTokens <;>
        simp [ArduinoController.send_manual_command, h, hc, ht]
    · intro ht
      simp [ArduinoController.send_manual_command, h, hc, ht]
    · intro ht
      refine ⟨?_, rfl, ?_⟩
      · simp [ArduinoController.send_manual_command, h, hc, ht,
          ArduinoController.writtenBytes]
      · simp only [manualCommandTokens, List.mem_cons, List.mem_singleton] at ht
        rcases ht with rfl | ht
        · decide
        · rcases ht with rfl | ht
          · decide
          · simp at ht
    · intro s a
      unfold commandPayload
      rw [String.data_append]
      have : ("\n" : String).data = ['\n'] := rfl
      rw [this]
      exact List.getLast?_concat _

/-- Witness for C8 at a connected controller: token `'f'` accepted and
written as the single character, token `'g'` rejected with `invalidToken`. -/
theorem C8_witness :
    ((ArduinoController.send_manual_command 'f' arduinoDemo).1 = Except.ok ())
    ∧ ArduinoController.send_manual_command 'g' arduinoDemo =
        (Except.error CommandError.invalidToken, arduinoDemo)
    ∧ (ArduinoController.send_manual_command 'f' arduinoDemo).2.writtenBytes =
        arduinoDemo.writtenBytes ++ [String.mk ['f']] := by
  have h1 := C8_manual_command_tokens arduinoDemo 'f' (by decide)
  have h2 := C8_manual_command_tokens arduinoDemo 'g' (by decide)
  exact ⟨h1.1.mpr (by decide), h2.2.1 (by decide), (h1.2.2.1 (by decide)).1⟩

/-- C10: on the very first sample (both previous values unset, the state after
`AssettoPhysics.__init__`), `get_acceleration_factor` reports status
`"Normal"` with factor 0 and change 0, `get_gear_change` reports
`gear_changed = False` with `change_type = None` and `previous_gear = None`,
and each call only initialises its own previous value for the next tick. -/
theorem C10_first_sample_quiet (ac : ArduinoController) (x y z : ℚ) (g : Int) :
    AssettoPhysics.get_acceleration_factor (some (x, y, z))
        (AssettoPhysics.init ac) =
      (some ⟨x, y, z, 0, 0, "Normal"⟩, ⟨ac, some z, none⟩)
    ∧ AssettoPhysics.get_gear_change (some g) (AssettoPhysics.init ac) =
      (some ⟨g, none, false, none, 0⟩, ⟨ac, none, some g⟩) :=
  ⟨rfl, rfl⟩
